import Mathlib

/-!
Verification of the autostar trading assistant.

Shallow embedding of the Python sources (`config.py`, `risk_manager.py`,
`monitor.py`, `backtester.py`, `whale_analyzer.py`, `recommender.py`) into
Lean 4.  Python floats are modelled as exact rationals (`ℚ`), Python dicts
whose key set is dynamic are modelled as association lists over `String`,
and fallible operations (attribute lookup on a module, dict subscription)
return `Except PyErr`.
-/

namespace Autostar

/-- Take-profit ladder rung as built by `RiskManager.calculate_take_profit`
(risk_manager.py lines 148-155): one entry of the `take_profit_levels_detail`
list. -/
structure TPLevelDetail where
  level : ℕ
  profit_percent : ℚ
  profit_price : ℚ
  profit_amount : ℚ
  ratio : ℚ
  cumulative_ratio : ℚ
deriving DecidableEq, Repr

/-- Python runtime errors relevant to the embedded code: attribute lookup
failure on the `config` module and dict subscription failure. -/
inductive PyErr where
  | attributeError (name : String)
  | keyError (key : String)
deriving DecidableEq, Repr

/-- Python values stored in the embedded dicts. -/
inductive PyVal where
  | num (q : ℚ)
  | str (s : String)
  | bool (b : Bool)
  | levels (ls : List TPLevelDetail)
deriving DecidableEq, Repr

/-- Module-level attributes defined by config.py, in source order, with the
values the module binds (the two API keys default to the empty string when
the environment does not provide them). -/
def config_attrs : List (String × PyVal) :=
  [("UPBIT_ACCESS_KEY", PyVal.str ""),
   ("UPBIT_SECRET_KEY", PyVal.str ""),
   ("UPDATE_INTERVAL", PyVal.num 60),
   ("USE_WEBSOCKET", PyVal.bool true),
   ("MIN_VOLUME_24H", PyVal.num 1000000000),
   ("WS_URL", PyVal.str "wss://api.upbit.com/websocket/v1"),
   ("WS_PING_INTERVAL", PyVal.num 30),
   ("WS_PING_TIMEOUT", PyVal.num 10),
   ("WS_RECONNECT_DELAY", PyVal.num 5),
   ("WS_MAX_RECONNECT_ATTEMPTS", PyVal.num 10),
   ("RSI_PERIOD", PyVal.num 14),
   ("RSI_OVERSOLD", PyVal.num 30),
   ("RSI_OVERBOUGHT", PyVal.num 70),
   ("MACD_FAST", PyVal.num 12),
   ("MACD_SLOW", PyVal.num 26),
   ("MACD_SIGNAL", PyVal.num 9),
   ("BB_PERIOD", PyVal.num 20),
   ("BB_STD", PyVal.num 2),
   ("MA_SHORT", PyVal.num 5),
   ("MA_MEDIUM", PyVal.num 20),
   ("MA_LONG", PyVal.num 60),
   ("STOP_LOSS_PERCENT", PyVal.num 3),
   ("TAKE_PROFIT_PERCENT", PyVal.num 5),
   ("MAX_POSITION_SIZE", PyVal.num (1/10)),
   ("WHALE_MIN_TRADE_AMOUNT", PyVal.num 50000000),
   ("WHALE_ANALYSIS_PERIOD", PyVal.num 300),
   ("WHALE_BUY_RATIO_THRESHOLD", PyVal.num (6/10)),
   ("WEIGHT_RSI", PyVal.num (12/100)),
   ("WEIGHT_MACD", PyVal.num (15/100)),
   ("WEIGHT_BB", PyVal.num (10/100)),
   ("WEIGHT_MA", PyVal.num (12/100)),
   ("WEIGHT_VOLUME", PyVal.num (8/100)),
   ("WEIGHT_BTC_CORRELATION", PyVal.num (8/100)),
   ("WEIGHT_WHALE", PyVal.num (15/100)),
   ("WEIGHT_SURGE", PyVal.num (20/100))]

/-- Attribute access `config.NAME`: an undefined module attribute raises
`AttributeError` in Python. -/
def config_getattr (name : String) : Except PyErr PyVal :=
  match List.lookup name config_attrs with
  | some v => Except.ok v
  | none => Except.error (PyErr.attributeError name)

/-- Attributes set on a `RiskManager` instance by `RiskManager.__init__`
(risk_manager.py lines 12-21), still untyped Python values. -/
structure RiskManagerObj where
  stop_loss_percent : PyVal
  take_profit_percent : PyVal
  max_position_size : PyVal
  take_profit_levels_uptrend : PyVal
  take_profit_levels_downtrend : PyVal
  take_profit_levels_sideways : PyVal
deriving DecidableEq, Repr

/-- Embedding of `RiskManager.__init__` (risk_manager.py lines 12-21): the
config attributes are read in source order and the first undefined one
raises `AttributeError`. -/
def risk_manager_init : Except PyErr RiskManagerObj := do
  let slp ← config_getattr "STOP_LOSS_PERCENT"
  let tpp ← config_getattr "TAKE_PROFIT_PERCENT"
  let mps ← config_getattr "MAX_POSITION_SIZE"
  let up ← config_getattr "TAKE_PROFIT_LEVELS_UPTREND"
  let down ← config_getattr "TAKE_PROFIT_LEVELS_DOWNTREND"
  let side ← config_getattr "TAKE_PROFIT_LEVELS_SIDEWAYS"
  Except.ok
    { stop_loss_percent := slp, take_profit_percent := tpp, max_position_size := mps,
      take_profit_levels_uptrend := up, take_profit_levels_downtrend := down,
      take_profit_levels_sideways := side }

/-- State of a `RiskManager` instance with numeric configuration, as the other
claims hypothesise one ("a Risk Engine whose take-profit ladders are
configured").  A ladder is an ordered list of (profit_percent, ratio) pairs. -/
structure RiskManagerState where
  stop_loss_percent : ℚ
  take_profit_percent : ℚ
  max_position_size : ℚ
  take_profit_levels_uptrend : List (ℚ × ℚ)
  take_profit_levels_downtrend : List (ℚ × ℚ)
  take_profit_levels_sideways : List (ℚ × ℚ)
deriving DecidableEq, Repr

/-- Bollinger-band indicator dict produced by indicators.py lines 131-136
(keys `upper`, `middle`, `lower`, `position`); each value modelled as
optional to reflect `dict.get`. -/
structure BollingerData where
  upper : Option ℚ
  middle : Option ℚ
  lower : Option ℚ
  position : Option ℚ
deriving DecidableEq, Repr

/-- Moving-average indicator dict produced by indicators.py lines 170-176
(keys `ma_short`, `ma_medium`, `ma_long`, `current_price`,
`alignment_score`). -/
structure MovingAveragesData where
  ma_short : Option ℚ
  ma_medium : Option ℚ
  ma_long : Option ℚ
  current_price : Option ℚ
  alignment_score : Option ℚ
deriving DecidableEq, Repr

/-- The slice of the indicators dict read by the risk engine: the `bollinger`
and `moving_averages` entries (each possibly absent/None). -/
structure Indicators where
  bollinger : Option BollingerData
  moving_averages : Option MovingAveragesData
deriving DecidableEq, Repr

/-- Python truthiness of an optional float: `None` and `0.0` are falsy. -/
def py_truthy : Option ℚ → Bool
  | none => false
  | some v => if v = 0 then false else true

/-- Return dict of `RiskManager.calculate_entry_price` (risk_manager.py
lines 60-64). -/
structure EntryPriceResult where
  suggested_entry : ℚ
  current_price : ℚ
  entry_premium : ℚ
deriving DecidableEq, Repr

/-- Embedding of `RiskManager.calculate_entry_price` (risk_manager.py
lines 23-64). -/
def calculate_entry_price (current_price : ℚ) (indicators : Indicators) :
    EntryPriceResult :=
  let entry_price := current_price
  let entry_price :=
    match indicators.bollinger with
    | none => entry_price
    | some bb_data =>
      let bb_position := bb_data.position.getD (1/2)
      if bb_position < 3/10 ∧ py_truthy bb_data.lower then
        min entry_price (bb_data.lower.getD 0 * (101/100))
      else entry_price
  let entry_price :=
    match indicators.moving_averages with
    | none => entry_price
    | some ma_data =>
      if py_truthy ma_data.ma_short ∧ current_price > ma_data.ma_short.getD 0 then
        min entry_price (ma_data.ma_short.getD 0 * (102/100))
      else if py_truthy ma_data.ma_medium ∧ current_price > ma_data.ma_medium.getD 0 then
        min entry_price (ma_data.ma_medium.getD 0 * (102/100))
      else entry_price
  { suggested_entry := entry_price,
    current_price := current_price,
    entry_premium :=
      if current_price > 0 then (current_price - entry_price) / current_price * 100 else 0 }

/-- Return dict of `RiskManager.calculate_stop_loss` (risk_manager.py
lines 101-105). -/
structure StopLossResult where
  stop_loss_price : ℚ
  stop_loss_percent : ℚ
  risk_amount_per_unit : ℚ
deriving DecidableEq, Repr

/-- Embedding of `RiskManager.calculate_stop_loss` (risk_manager.py
lines 66-105). -/
def calculate_stop_loss (rm : RiskManagerState) (entry_price current_price : ℚ)
    (indicators : Indicators) : StopLossResult :=
  let base_stop_loss := entry_price * (1 - rm.stop_loss_percent / 100)
  let stop_loss := base_stop_loss
  let stop_loss :=
    match indicators.bollinger with
    | none => stop_loss
    | some bb_data =>
      if py_truthy bb_data.lower ∧ bb_data.lower.getD 0 < base_stop_loss then
        bb_data.lower.getD 0 * (98/100)
      else stop_loss
  let stop_loss :=
    match indicators.moving_averages with
    | none => stop_loss
    | some ma_data =>
      if py_truthy ma_data.ma_long ∧ ma_data.ma_long.getD 0 < stop_loss then
        ma_data.ma_long.getD 0 * (97/100)
      else stop_loss
  let stop_loss := min stop_loss (entry_price * (99/100))
  { stop_loss_price := stop_loss,
    stop_loss_percent :=
      if entry_price > 0 then (entry_price - stop_loss) / entry_price * 100 else 0,
    risk_amount_per_unit := entry_price - stop_loss }

/-- Bitcoin trend dict as consumed by `calculate_take_profit`
(risk_manager.py lines 121-123); the fields carry the `dict.get` defaults
used there. -/
structure BtcTrend where
  is_uptrend : Bool
  is_downtrend : Bool
  trend_direction : String
deriving DecidableEq, Repr

/-- The level-building loop of `RiskManager.calculate_take_profit`
(risk_manager.py lines 141-157): `built` counts the levels already built
(the source uses `len(take_profit_levels_detail) + 1` for the level number)
and `cumulative_ratio` is the running ratio sum. -/
def build_tp_levels (entry_price : ℚ) :
    List (ℚ × ℚ) → ℕ → ℚ → List TPLevelDetail
  | [], _, _ => []
  | (profit_percent, ratio) :: rest, built, cumulative_ratio =>
    let profit_price := entry_price * (1 + profit_percent / 100)
    { level := built + 1,
      profit_percent := profit_percent,
      profit_price := profit_price,
      profit_amount := profit_price - entry_price,
      ratio := ratio,
      cumulative_ratio := cumulative_ratio + ratio } ::
      build_tp_levels entry_price rest (built + 1) (cumulative_ratio + ratio)

/-- Return dict of `RiskManager.calculate_take_profit` (risk_manager.py
lines 168-175). -/
structure TakeProfitResult where
  take_profit_levels : List TPLevelDetail
  first_take_profit_price : ℚ
  first_take_profit_percent : ℚ
  avg_take_profit_percent : ℚ
  trend_mode : String
  total_levels : ℕ
deriving DecidableEq, Repr

/-- Embedding of `RiskManager.calculate_take_profit` (risk_manager.py
lines 107-175). -/
def calculate_take_profit (rm : RiskManagerState) (entry_price : ℚ)
    (btc_trend : Option BtcTrend) : TakeProfitResult :=
  let selected : List (ℚ × ℚ) × String :=
    match btc_trend with
    | some bt =>
      if bt.is_downtrend ∨ bt.trend_direction = "하락" then
        (rm.take_profit_levels_downtrend, "하락추세")
      else if bt.is_uptrend ∨ bt.trend_direction = "상승" then
        (rm.take_profit_levels_uptrend, "상승추세")
      else
        (rm.take_profit_levels_sideways, "횡보")
    | none => (rm.take_profit_levels_sideways, "기본")
  let take_profit_levels_detail := build_tp_levels entry_price selected.1 0 0
  let first_take_profit := take_profit_levels_detail.head?
  { take_profit_levels := take_profit_levels_detail,
    first_take_profit_price :=
      match first_take_profit with
      | some f => f.profit_price
      | none => entry_price * (105/100),
    first_take_profit_percent :=
      match first_take_profit with
      | some f => f.profit_percent
      | none => 5,
    avg_take_profit_percent :=
      (take_profit_levels_detail.map (fun l => l.profit_percent * l.ratio)).sum,
    trend_mode := selected.2,
    total_levels := take_profit_levels_detail.length }

/-- Return dict of `RiskManager.calculate_position_size` (risk_manager.py
lines 192-217); `risk_percent_of_capital` is absent from the early-return
dict, hence optional here. -/
structure PositionSizeResult where
  position_size : ℚ
  position_value : ℚ
  max_risk_amount : ℚ
  risk_percent_of_capital : Option ℚ
deriving DecidableEq, Repr

/-- Embedding of `RiskManager.calculate_position_size` (risk_manager.py
lines 177-217). -/
def calculate_position_size (rm : RiskManagerState)
    (entry_price stop_loss_price total_capital : ℚ) : PositionSizeResult :=
  let risk_per_unit := entry_price - stop_loss_price
  if risk_per_unit ≤ 0 then
    { position_size := 0, position_value := 0, max_risk_amount := 0,
      risk_percent_of_capital := none }
  else
    let max_risk := total_capital * (2/100)
    let position_size := max_risk / risk_per_unit
    let max_position_value := total_capital * rm.max_position_size
    let max_position_size_by_capital := max_position_value / entry_price
    let position_size := min position_size max_position_size_by_capital
    { position_size := position_size,
      position_value := position_size * entry_price,
      max_risk_amount := position_size * risk_per_unit,
      risk_percent_of_capital :=
        some (if total_capital > 0 then position_size * risk_per_unit / total_capital * 100 else 0) }

/-- Embedding of `RiskManager.calculate_all_risk_parameters` (risk_manager.py
lines 219-274), returning the dict literal of lines 258-274 as an association
list in source key order.  Note the dict carries `first_take_profit_price`
but no `take_profit_price` key. -/
def calculate_all_risk_parameters (rm : RiskManagerState) (current_price : ℚ)
    (indicators : Indicators) (total_capital : ℚ) (btc_trend : Option BtcTrend) :
    List (String × PyVal) :=
  let entry_info := calculate_entry_price current_price indicators
  let entry_price := entry_info.suggested_entry
  let stop_loss_info := calculate_stop_loss rm entry_price current_price indicators
  let take_profit_info := calculate_take_profit rm entry_price btc_trend
  let position_info :=
    calculate_position_size rm entry_price stop_loss_info.stop_loss_price total_capital
  let first_profit := take_profit_info.first_take_profit_price - entry_price
  let risk_reward_ratio :=
    if stop_loss_info.risk_amount_per_unit > 0 then
      first_profit / stop_loss_info.risk_amount_per_unit
    else 0
  [("entry_price", PyVal.num entry_price),
   ("current_price", PyVal.num current_price),
   ("stop_loss_price", PyVal.num stop_loss_info.stop_loss_price),
   ("stop_loss_percent", PyVal.num stop_loss_info.stop_loss_percent),
   ("position_size", PyVal.num position_info.position_size),
   ("position_value", PyVal.num position_info.position_value),
   ("max_risk_amount", PyVal.num position_info.max_risk_amount),
   ("risk_reward_ratio", PyVal.num risk_reward_ratio),
   ("take_profit_levels", PyVal.levels take_profit_info.take_profit_levels),
   ("first_take_profit_price", PyVal.num take_profit_info.first_take_profit_price),
   ("first_take_profit_percent", PyVal.num take_profit_info.first_take_profit_percent),
   ("avg_take_profit_percent", PyVal.num take_profit_info.avg_take_profit_percent),
   ("trend_mode", PyVal.str take_profit_info.trend_mode),
   ("total_levels", PyVal.num take_profit_info.total_levels)]

/-- Python dict subscription `d[k]`: a missing key raises `KeyError`. -/
def dict_get (d : List (String × PyVal)) (k : String) : Except PyErr PyVal :=
  match List.lookup k d with
  | some v => Except.ok v
  | none => Except.error (PyErr.keyError k)

/-- Numeric content of a Python value; the monitor reads float-valued keys of
the risk-parameter dict into float-valued fields. -/
def as_num : PyVal → ℚ
  | PyVal.num q => q
  | _ => 0

/-- Monitored position record built by `StockMonitor.add_stock` (monitor.py
lines 68-81) and mutated by `_on_websocket_message` and `_update_status`.
The wall-clock fields (`added_at`, `last_update`) and the back references
(`risk_params`, `indicators`) are not modelled. -/
structure MonStock where
  ticker : String
  entry_price : ℚ
  stop_loss_price : ℚ
  take_profit_price : ℚ
  current_price : ℚ
  last_price : ℚ
  price_change_percent : ℚ
  status : String
deriving DecidableEq, Repr

/-- Candidate dict passed to `StockMonitor.add_stock` (the recommender
output): the two keys read up front plus the indicators slice. -/
structure StockData where
  ticker : Option String
  current_price : Option ℚ
  indicators : Indicators
deriving DecidableEq, Repr

/-- Python truthiness of an optional string: `None` and `""` are falsy. -/
def py_truthy_str : Option String → Bool
  | none => false
  | some s => if s = "" then false else true

/-- Embedding of `StockMonitor.add_stock` (monitor.py lines 47-83): after the
truthiness guard it computes the risk parameters (with the default capital of
10,000,000 and no trend argument, as at the call site on lines 62-65) and
builds the monitor record, subscribing `entry_price`, `stop_loss_price` and
`take_profit_price` on the risk-parameter dict in source order. -/
def add_stock (rm : RiskManagerState) (monitored_stocks : List MonStock)
    (stock_data : StockData) : Except PyErr (List MonStock) :=
  if py_truthy_str stock_data.ticker = false ∨ py_truthy stock_data.current_price = false then
    Except.ok monitored_stocks
  else
    let ticker := stock_data.ticker.getD ""
    let current_price := stock_data.current_price.getD 0
    let risk_params :=
      calculate_all_risk_parameters rm current_price stock_data.indicators 10000000 none
    do
      let ep ← dict_get risk_params "entry_price"
      let sl ← dict_get risk_params "stop_loss_price"
      let tp ← dict_get risk_params "take_profit_price"
      Except.ok (monitored_stocks ++
        [{ ticker := ticker,
           entry_price := as_num ep,
           stop_loss_price := as_num sl,
           take_profit_price := as_num tp,
           current_price := current_price,
           last_price := current_price,
           price_change_percent := 0,
           status := "대기중" }])

/-- Embedding of `StockMonitor._update_status` (monitor.py lines 145-173);
the returned Bool records whether `_print_alert` was called. -/
def update_status (stock : MonStock) : MonStock × Bool :=
  let current_price := stock.current_price
  let entry_price := stock.entry_price
  let stop_loss := stock.stop_loss_price
  let take_profit := stock.take_profit_price
  if current_price ≤ stop_loss then
    if stock.status ≠ "손절" then ({ stock with status := "손절" }, true)
    else (stock, false)
  else if current_price ≥ take_profit then
    if stock.status ≠ "익절" then ({ stock with status := "익절" }, true)
    else (stock, false)
  else if current_price ≤ entry_price * (101/100) then
    if stock.status = "대기중" then ({ stock with status := "진입" }, true)
    else (stock, false)
  else (stock, false)

/-- Price-update part of `StockMonitor._on_websocket_message` (monitor.py
lines 98-108): a truthy `trade_price` shifts `current_price` into
`last_price`, installs the new price and change percentage, and runs
`_update_status`. -/
def apply_tick (stock : MonStock) (trade_price : Option ℚ) : MonStock × Bool :=
  if py_truthy trade_price then
    let current_price := trade_price.getD 0
    let last_price := stock.current_price
    update_status
      { stock with
        last_price := last_price,
        current_price := current_price,
        price_change_percent :=
          if last_price > 0 then (current_price - last_price) / last_price * 100 else 0 }
  else (stock, false)

/-- Trade record returned by `Backtester.simulate_trade` (backtester.py
lines 96-107) plus the `exit_reason` key the caller adds afterwards
(empty until set); dates are bar indices. -/
structure Trade where
  ticker : String
  entry_date : ℕ
  exit_date : ℕ
  entry_price : ℚ
  exit_price : ℚ
  position_size : ℚ
  entry_value : ℚ
  exit_value : ℚ
  profit : ℚ
  profit_percent : ℚ
  exit_reason : String
deriving DecidableEq, Repr

/-- Embedding of `Backtester.simulate_trade` (backtester.py lines 75-107). -/
def simulate_trade (ticker : String) (entry_date : ℕ) (entry_price : ℚ)
    (exit_date : ℕ) (exit_price : ℚ) (position_size : ℚ) : Trade :=
  let entry_value := entry_price * position_size
  let exit_value := exit_price * position_size
  let profit := exit_value - entry_value
  { ticker := ticker,
    entry_date := entry_date,
    exit_date := exit_date,
    entry_price := entry_price,
    exit_price := exit_price,
    position_size := position_size,
    entry_value := entry_value,
    exit_value := exit_value,
    profit := profit,
    profit_percent := if entry_value > 0 then profit / entry_value * 100 else 0,
    exit_reason := "" }

/-- Open position record of `Backtester.backtest_strategy` (backtester.py
lines 198-206). -/
structure BTPosition where
  entry_date : ℕ
  entry_price : ℚ
  position_size : ℚ
  stop_loss : ℚ
  take_profit_levels : List TPLevelDetail
  exited_levels : List ℕ
  entry_value : ℚ
deriving DecidableEq, Repr

/-- One bar of the replay loop of `Backtester.backtest_strategy` while a
position is open (backtester.py lines 210-261): stop-loss first, else the
partial take-profit sweep.  Returns the updated capital, the position
(`none` once closed) and the extended trade list. -/
def position_bar_step (ticker : String) (current_date : ℕ) (current_price : ℚ)
    (current_capital : ℚ) (position : BTPosition) (trades : List Trade) :
    ℚ × Option BTPosition × List Trade :=
  if current_price ≤ position.stop_loss then
    let exit_value := current_price * position.position_size
    let trade :=
      { simulate_trade ticker position.entry_date position.entry_price
          current_date current_price position.position_size with
        exit_reason := "손절" }
    (current_capital + exit_value, none, trades ++ [trade])
  else if position.take_profit_levels ≠ [] then
    let fired := position.take_profit_levels.filter
      (fun level =>
        !(position.exited_levels.contains level.level) &&
          decide (current_price ≥ level.profit_price))
    let total_exit_value :=
      (fired.map (fun level => current_price * (position.position_size * level.ratio))).sum
    let new_exited_levels := fired.map (fun level => level.level)
    let new_trades := fired.map (fun level =>
      { simulate_trade ticker position.entry_date position.entry_price
          current_date current_price (position.position_size * level.ratio) with
        exit_reason := "익절 레벨 " ++ toString level.level })
    if new_exited_levels ≠ [] then
      let exited := position.exited_levels ++ new_exited_levels
      if exited.length ≥ position.take_profit_levels.length then
        (current_capital + total_exit_value, none, trades ++ new_trades)
      else
        (current_capital + total_exit_value,
          some { position with exited_levels := exited }, trades ++ new_trades)
    else (current_capital, some position, trades)
  else (current_capital, some position, trades)

/-- Final-value marking of `Backtester.backtest_strategy` (backtester.py
lines 263-267): a still-open position is liquidated at the last seen price
using the stored (never decremented) `position_size`. -/
def backtest_final_value (current_capital : ℚ) (position : Option BTPosition)
    (current_price : ℚ) : ℚ :=
  match position with
  | some p => current_capital + current_price * p.position_size
  | none => current_capital

/-- Whale trade entry as stored by `WhaleAnalyzer.add_trade`
(whale_analyzer.py lines 51-57); timestamps are rational seconds. -/
structure WhaleTrade where
  timestamp : ℚ
  trade_price : ℚ
  trade_volume : ℚ
  trade_amount : ℚ
  ask_bid : String
deriving DecidableEq, Repr

/-- Return dict of `WhaleAnalyzer.analyze_whale_activity`
(whale_analyzer.py lines 127-137). -/
structure WhaleActivity where
  buy_ratio : ℚ
  sell_ratio : ℚ
  total_trades : ℕ
  buy_trades : ℕ
  sell_trades : ℕ
  total_buy_amount : ℚ
  total_sell_amount : ℚ
  net_amount : ℚ
  score : ℚ
deriving DecidableEq, Repr

/-- Embedding of `WhaleAnalyzer.analyze_whale_activity` (whale_analyzer.py
lines 59-137) for one ticker: `whale_trades` is the stored deque for the
ticker (an absent ticker is the empty list) and `now` the current time in
seconds.  The three analyzer attributes come from config at construction. -/
def analyze_whale_activity (min_trade_amount analysis_period buy_ratio_threshold : ℚ)
    (whale_trades : List WhaleTrade) (now : ℚ) : Option WhaleActivity :=
  if whale_trades = [] then none
  else
    let cutoff_time := now - analysis_period
    let recent_trades := whale_trades.filter (fun t => decide (t.timestamp ≥ cutoff_time))
    if recent_trades = [] then none
    else
      let buy_trades := recent_trades.filter (fun t => t.ask_bid == "BID")
      let sell_trades := recent_trades.filter (fun t => t.ask_bid == "ASK")
      let total_buy_amount := (buy_trades.map (fun t => t.trade_amount)).sum
      let total_sell_amount := (sell_trades.map (fun t => t.trade_amount)).sum
      let total_amount := total_buy_amount + total_sell_amount
      if total_amount = 0 then none
      else
        let buy_ratio := total_buy_amount / total_amount
        let sell_ratio := total_sell_amount / total_amount
        let net_amount := total_buy_amount - total_sell_amount
        let base_score :=
          if buy_ratio ≥ buy_ratio_threshold then
            7/10 + (buy_ratio - buy_ratio_threshold) * (6/10)
          else
            buy_ratio / buy_ratio_threshold * (7/10)
        let score :=
          if net_amount > 0 then
            min 1 (base_score + min (net_amount / (min_trade_amount * 10)) (2/10))
          else
            max 0 (base_score - min (abs net_amount / (min_trade_amount * 10)) (3/10))
        some
          { buy_ratio := buy_ratio,
            sell_ratio := sell_ratio,
            total_trades := recent_trades.length,
            buy_trades := buy_trades.length,
            sell_trades := sell_trades.length,
            total_buy_amount := total_buy_amount,
            total_sell_amount := total_sell_amount,
            net_amount := net_amount,
            score := score }

/-- RSI oversold threshold, config.py line 29, read into the recommender
config dict (recommender.py line 35). -/
def RSI_OVERSOLD : ℚ := 30

/-- RSI overbought threshold, config.py line 30, read into the recommender
config dict (recommender.py line 36). -/
def RSI_OVERBOUGHT : ℚ := 70

/-- Embedding of `StockRecommender.calculate_rsi_score` (recommender.py
lines 55-76); `none` models a null RSI. -/
def calculate_rsi_score : Option ℚ → ℚ
  | none => 0
  | some rsi =>
    if rsi ≤ RSI_OVERSOLD then 1
    else if rsi ≥ RSI_OVERBOUGHT then 0
    else 1 - (rsi - RSI_OVERSOLD) / (RSI_OVERBOUGHT - RSI_OVERSOLD)

/-- Embedding of `StockRecommender.calculate_bb_score` (recommender.py
lines 114-136); a missing `position` key defaults to 0.5. -/
def calculate_bb_score : Option BollingerData → ℚ
  | none => 0
  | some bb_data =>
    let position := bb_data.position.getD (1/2)
    if position ≤ 2/10 then 1
    else if position ≥ 8/10 then 0
    else 1 - position

/-- Modelled from the spec: the claim asserts that between band positions 0.2
and 0.8 the Bollinger sub-score is "the linear interpolation between those
two endpoint values", i.e. the line through (0.2, 1.0) and (0.8, 0.0).
This definition follows the spec's words, for comparison with
`calculate_bb_score` (which the source defines as `1.0 - position` there). -/
def bb_score_endpoint_interpolation (position : ℚ) : ℚ :=
  1 + (position - 2/10) * ((0 - 1) / (8/10 - 2/10))

/-- Hypothetical configured risk-engine state used by the concrete scenarios
(config.py defines no ladder attributes, so these values stand in for a
configured instance): the sideways ladder takes profit at +4% for half the
position and +8% for the rest. -/
def rm_configured : RiskManagerState :=
  { stop_loss_percent := 3, take_profit_percent := 5, max_position_size := 1/10,
    take_profit_levels_uptrend := [(5, 1/2), (10, 1/2)],
    take_profit_levels_downtrend := [(2, 1/2), (4, 1/2)],
    take_profit_levels_sideways := [(4, 1/2), (8, 1/2)] }

/-- Indicators dict with neither a `bollinger` nor a `moving_averages`
entry. -/
def empty_indicators : Indicators := { bollinger := none, moving_averages := none }

/-- Waiting position of the C5 scenario: entry 100, stop-loss 97, first
take-profit 104. -/
def c5_scenario_stock : MonStock :=
  { ticker := "KRW-XRP", entry_price := 100, stop_loss_price := 97,
    take_profit_price := 104, current_price := 100, last_price := 100,
    price_change_percent := 0, status := "대기중" }

/-- Open backtest position of the C6 scenario: 10 units entered at 100 with
stop-loss 97 and the +4%/+8% half-and-half ladder, after take-profit level 1
has already fired (so only half the units are still held). -/
def c6_position : BTPosition :=
  { entry_date := 0, entry_price := 100, position_size := 10, stop_loss := 97,
    take_profit_levels := build_tp_levels 100 [(4, 1/2), (8, 1/2)] 0 0,
    exited_levels := [1], entry_value := 1000 }

/-- Fresh backtest position of the C7 run: 10 units entered at 100 (cost
1000 deducted from the initial capital of 10,000,000), stop-loss 97, ladder
+4% for half and +8% for the rest, no level exited yet. -/
def c7_position : BTPosition :=
  { entry_date := 0, entry_price := 100, position_size := 10, stop_loss := 97,
    take_profit_levels := build_tp_levels 100 [(4, 1/2), (8, 1/2)] 0 0,
    exited_levels := [], entry_value := 1000 }

/-- Whale log of the C8 scenario: three buy trades of amount 60,000,000 and
one sell trade of amount 20,000,000, all timestamped inside the analysis
window ending at time 0. -/
def c8_whale_trades : List WhaleTrade :=
  [{ timestamp := 0, trade_price := 60000000, trade_volume := 1,
     trade_amount := 60000000, ask_bid := "BID" },
   { timestamp := 0, trade_price := 60000000, trade_volume := 1,
     trade_amount := 60000000, ask_bid := "BID" },
   { timestamp := 0, trade_price := 60000000, trade_volume := 1,
     trade_amount := 60000000, ask_bid := "BID" },
   { timestamp := 0, trade_price := 20000000, trade_volume := 1,
     trade_amount := 20000000, ask_bid := "ASK" }]

/-- C1: constructing the risk engine with its default constructor always
fails: `RiskManager.__init__` reads `config.TAKE_PROFIT_LEVELS_UPTREND`
(and the downtrend/sideways variants), the config module defines no such
attribute, so every `RiskManager()` call raises `AttributeError` at the
first missing ladder attribute and no instance is ever produced. -/
theorem C1_risk_manager_init_raises :
    risk_manager_init =
      Except.error (PyErr.attributeError "TAKE_PROFIT_LEVELS_UPTREND") := rfl

/-- C2: against the claim, `StockMonitor.add_stock` never appends a
monitored position: for a candidate with a ticker and a positive price and
a configured risk engine, the risk-parameter dict carries
`first_take_profit_price` but no `take_profit_price` key, so the
subscription `risk_params['take_profit_price']` raises `KeyError`. -/
theorem C2_add_stock_raises_keyerror :
    add_stock rm_configured []
      { ticker := some "KRW-XRP", current_price := some 100,
        indicators := empty_indicators } =
      Except.error (PyErr.keyError "take_profit_price") := rfl

/-- Evaluation of the whale analyzer on the C8 scenario log with the config
parameters 50,000,000 / 300 s / 0.6 at time 0. -/
lemma c8_whale_eval :
    analyze_whale_activity 50000000 300 (6/10) c8_whale_trades 0 =
      some { buy_ratio := 9/10, sell_ratio := 1/10, total_trades := 4,
             buy_trades := 3, sell_trades := 1, total_buy_amount := 180000000,
             total_sell_amount := 20000000, net_amount := 160000000, score := 1 } := by
  simp [analyze_whale_activity, c8_whale_trades, List.filter, min_def, max_def]
  norm_num

/-- C8 counterexample: on the claimed scenario the buy ratio computed by
`analyze_whale_activity` (with the config values 50,000,000 / 300s / 0.6)
is amount-weighted, 180M/200M = 0.9, not the 0.75 the claim states. -/
theorem C8_buy_ratio_counterexample :
    (analyze_whale_activity 50000000 300 (6/10) c8_whale_trades 0).map
        WhaleActivity.buy_ratio = some (9/10) ∧
    (9/10 : ℚ) ≠ 3/4 := by
  rw [c8_whale_eval]
  constructor
  · rfl
  · norm_num

/-- C8 amended: on the scenario the analyzer returns buy_ratio 0.9 (not
0.75), net_amount +160,000,000, and a score of 1.0 — the base score 0.88 is
raised by the net-amount bonus capped at +0.2 and the sum 1.08 is clamped
to 1.0, which is strictly above the base threshold score 0.7. -/
theorem C8_whale_scenario_amended :
    (analyze_whale_activity 50000000 300 (6/10) c8_whale_trades 0).map
        (fun a => (a.buy_ratio, a.net_amount, a.score)) =
      some (9/10, 160000000, 1) ∧
    ((7:ℚ)/10 < 1) := by
  rw [c8_whale_eval]
  constructor
  · rfl
  · norm_num

/-- Branch form of the RSI sub-score on a non-null input, with the config
thresholds 30 and 70 substituted. -/
lemma calculate_rsi_score_some (r : ℚ) :
    calculate_rsi_score (some r) =
      if r ≤ 30 then 1 else if 70 ≤ r then 0 else 1 - (r - 30) / 40 := by
  rw [calculate_rsi_score]
  norm_num [RSI_OVERSOLD, RSI_OVERBOUGHT, ge_iff_le]

/-- Branch form of the Bollinger sub-score when the dict carries a
`position` value. -/
lemma calculate_bb_score_some (bb : BollingerData) (p : ℚ)
    (hp : bb.position = some p) :
    calculate_bb_score (some bb) =
      if p ≤ 2/10 then 1 else if 8/10 ≤ p then 0 else 1 - p := by
  rw [calculate_bb_score]
  simp [hp, ge_iff_le]

/-- C9: the RSI sub-score is 0 on a null RSI and otherwise lies in [0,1];
it equals 1 iff rsi ≤ 30 (the oversold threshold), equals 0 iff
rsi ≥ 70 (the overbought threshold), follows the linear map
1 − (rsi − 30)/40 between the thresholds, and is monotonically
non-increasing there. -/
theorem C9_rsi_score_properties :
    calculate_rsi_score none = 0 ∧
    ∀ r : ℚ,
      (0 ≤ calculate_rsi_score (some r) ∧ calculate_rsi_score (some r) ≤ 1) ∧
      (calculate_rsi_score (some r) = 1 ↔ r ≤ 30) ∧
      (calculate_rsi_score (some r) = 0 ↔ 70 ≤ r) ∧
      (30 ≤ r → r ≤ 70 → calculate_rsi_score (some r) = 1 - (r - 30) / 40) ∧
      (∀ s : ℚ, 30 ≤ r → r ≤ s → s ≤ 70 →
        calculate_rsi_score (some s) ≤ calculate_rsi_score (some r)) := by
  refine ⟨rfl, fun r => ⟨⟨?_, ?_⟩, ⟨?_, ?_⟩, ⟨?_, ?_⟩, ?_, ?_⟩⟩
  · rw [calculate_rsi_score_some]
    split_ifs <;> linarith
  · rw [calculate_rsi_score_some]
    split_ifs <;> linarith
  · rw [calculate_rsi_score_some]
    split_ifs with h1 h2
    · intro _; exact h1
    · intro h; exact absurd h (by norm_num)
    · intro h; exfalso; linarith [not_le.mp h1, not_le.mp h2]
  · intro h
    rw [calculate_rsi_score_some, if_pos h]
  · rw [calculate_rsi_score_some]
    split_ifs with h1 h2
    · intro h; exact absurd h (by norm_num)
    · intro _; exact h2
    · intro h; exfalso; linarith [not_le.mp h1, not_le.mp h2]
  · intro h
    rw [calculate_rsi_score_some, if_neg (by linarith), if_pos h]
  · intro h h'
    rw [calculate_rsi_score_some]
    split_ifs with h1 h2
    · have : r = 30 := le_antisymm h1 h
      rw [this]; norm_num
    · have : r = 70 := le_antisymm h' h2
      rw [this]; norm_num
    · rfl
  · intro s h1 h2 h3
    rw [calculate_rsi_score_some, calculate_rsi_score_some]
    split_ifs <;> linarith

/-- Witness for C9 at rsi = 50 (linear value) and the pair 40 ≤ 60
(monotonicity). -/
theorem C9_rsi_score_witness :
    ((30:ℚ) ≤ 50 ∧ (50:ℚ) ≤ 70 ∧
      calculate_rsi_score (some 50) = 1 - (50 - 30) / 40) ∧
    ((30:ℚ) ≤ 40 ∧ (40:ℚ) ≤ 60 ∧ (60:ℚ) ≤ 70 ∧
      calculate_rsi_score (some 60) ≤ calculate_rsi_score (some 40)) :=
  ⟨⟨by norm_num, by norm_num,
     (C9_rsi_score_properties.2 50).2.2.2.1 (by norm_num) (by norm_num)⟩,
   ⟨by norm_num, by norm_num, by norm_num,
     (C9_rsi_score_properties.2 40).2.2.2.2 60 (by norm_num) (by norm_num) (by norm_num)⟩⟩

/-- C10 counterexample: at band position 0.25 (strictly between 0.2 and
0.8) the code's Bollinger sub-score is 1 − 0.25 = 0.75, while the linear
interpolation between the endpoint values (1.0 at 0.2, 0.0 at 0.8) claimed
by the spec is 11/12; the two differ, so the claimed formula (and with it
continuity at the 0.2 edge) fails. -/
theorem C10_bb_score_counterexample :
    ((1:ℚ)/5 < 1/4 ∧ (1/4 : ℚ) < 4/5) ∧
    calculate_bb_score
        (some { upper := none, middle := none, lower := none, position := some (1/4) }) = 3/4 ∧
    bb_score_endpoint_interpolation (1/4) = 11/12 ∧
    (3/4 : ℚ) ≠ 11/12 := by
  refine ⟨⟨by norm_num, by norm_num⟩, ?_, ?_, by norm_num⟩
  · norm_num [calculate_bb_score]
  · norm_num [bb_score_endpoint_interpolation]

/-- C10 amended: the Bollinger sub-score is 1.0 at band positions at or
below 0.2 and 0.0 at or above 0.8, but strictly between them it is
1.0 − position rather than the interpolation of the endpoint values, so the
mapping is not continuous: it never exceeds 0.8 for any position above 0.2
(a jump from 1.0 at the lower edge) and stays above 0.2 inside the band
(a jump to 0.0 at the upper edge). -/
theorem C10_bb_score_amended :
    calculate_bb_score none = 0 ∧
    (∀ (bb : BollingerData) (p : ℚ), bb.position = some p →
      (p ≤ 2/10 → calculate_bb_score (some bb) = 1) ∧
      (8/10 ≤ p → calculate_bb_score (some bb) = 0) ∧
      (2/10 < p → p < 8/10 → calculate_bb_score (some bb) = 1 - p) ∧
      (2/10 < p → calculate_bb_score (some bb) ≤ 8/10) ∧
      (2/10 < p → p < 8/10 → 1/5 < calculate_bb_score (some bb))) := by
  refine ⟨rfl, fun bb p hp => ⟨?_, ?_, ?_, ?_, ?_⟩⟩
  · intro h
    rw [calculate_bb_score_some bb p hp, if_pos h]
  · intro h
    rw [calculate_bb_score_some bb p hp, if_neg (by linarith), if_pos h]
  · intro h1 h2
    rw [calculate_bb_score_some bb p hp, if_neg (by linarith), if_neg (by linarith)]
  · intro h1
    rw [calculate_bb_score_some bb p hp]
    split_ifs with ha hb
    · linarith
    · linarith
    · linarith
  · intro h1 h2
    rw [calculate_bb_score_some bb p hp, if_neg (by linarith), if_neg (by linarith)]
    linarith

/-- Witness for C10's amended statement at band position 0.25. -/
theorem C10_bb_score_amended_witness :
    ((2:ℚ)/10 < 1/4 ∧ (1/4 : ℚ) < 8/10) ∧
    calculate_bb_score
        (some { upper := none, middle := none, lower := none, position := some (1/4) }) =
      1 - 1/4 :=
  ⟨⟨by norm_num, by norm_num⟩,
   (C10_bb_score_amended.2
      { upper := none, middle := none, lower := none, position := some (1/4) }
      (1/4) rfl).2.2.1 (by norm_num) (by norm_num)⟩

/-- C5: `_update_status` checks stop-loss, then take-profit, then entry in
that fixed order; it prints an alert exactly when the status actually
changes (re-firing the same status is suppressed); and on the concrete
scenario (waiting, entry 100, stop 97) a tick of 96 transitions to the
stopped state with exactly one alert while a follow-up tick of 95 fires
none. -/
theorem C5_update_status_transitions :
    (∀ stock : MonStock,
      ((update_status stock).2 = true ↔ (update_status stock).1.status ≠ stock.status) ∧
      (stock.current_price ≤ stock.stop_loss_price →
        (update_status stock).1.status = "손절") ∧
      (¬ stock.current_price ≤ stock.stop_loss_price →
        stock.current_price ≥ stock.take_profit_price →
        (update_status stock).1.status = "익절") ∧
      (¬ stock.current_price ≤ stock.stop_loss_price →
        ¬ stock.current_price ≥ stock.take_profit_price →
        stock.current_price ≤ stock.entry_price * (101/100) →
        stock.status = "대기중" →
        (update_status stock).1.status = "진입")) ∧
    ((apply_tick c5_scenario_stock (some 96)).1.status = "손절" ∧
      (apply_tick c5_scenario_stock (some 96)).2 = true ∧
      (apply_tick (apply_tick c5_scenario_stock (some 96)).1 (some 95)).2 = false) := by
  constructor
  · intro stock
    refine ⟨?_, ?_, ?_, ?_⟩
    · simp only [update_status]
      split_ifs with h1 h2 h3 h4 h5 h6
      · simp [Ne.symm h2]
      · simp
      · simp [Ne.symm h4]
      · simp
      · simp [h6]
      · simp
      · simp
    · intro h1
      simp only [update_status]
      split_ifs <;> simp_all [eq_comm]
    · intro h1 h2
      simp only [update_status]
      split_ifs <;> simp_all [eq_comm]
    · intro h1 h2 h3 h4
      simp only [update_status]
      split_ifs <;> simp_all [eq_comm]
  · refine ⟨?_, ?_, ?_⟩ <;>
      simp [apply_tick, update_status, py_truthy, c5_scenario_stock] <;> norm_num

/-- Witness for C5's conditional clauses: on the scenario stock itself
(current 100, stop 97, take-profit 104, waiting) the entry-transition
clause applies and yields the entered state. -/
theorem C5_update_status_transitions_witness :
    (¬ c5_scenario_stock.current_price ≤ c5_scenario_stock.stop_loss_price ∧
      ¬ c5_scenario_stock.current_price ≥ c5_scenario_stock.take_profit_price ∧
      c5_scenario_stock.current_price ≤ c5_scenario_stock.entry_price * (101/100) ∧
      c5_scenario_stock.status = "대기중") ∧
    (update_status c5_scenario_stock).1.status = "진입" :=
  ⟨⟨by norm_num [c5_scenario_stock], by norm_num [c5_scenario_stock],
    by norm_num [c5_scenario_stock], rfl⟩,
   (C5_update_status_transitions.1 c5_scenario_stock).2.2.2
     (by norm_num [c5_scenario_stock]) (by norm_num [c5_scenario_stock])
     (by norm_num [c5_scenario_stock]) rfl⟩

/-- Core bound behind C3: the last step of `calculate_stop_loss` caps the
stop at 99% of entry, so for positive entries the stop sits strictly below
the entry whatever the indicators contain. -/
lemma stop_loss_price_lt_entry (rm : RiskManagerState) (entry_price current_price : ℚ)
    (indicators : Indicators) (h : 0 < entry_price) :
    (calculate_stop_loss rm entry_price current_price indicators).stop_loss_price <
      entry_price := by
  have hle : (calculate_stop_loss rm entry_price current_price indicators).stop_loss_price ≤
      entry_price * (99/100) := min_le_right _ _
  linarith

/-- C3: for every positive entry price and arbitrary indicators the stop
loss returned by `calculate_stop_loss` is strictly below the entry price
(the final cap at 99% of entry forces it), and consequently the
`stop_loss_price` entry of every risk-parameter dict produced by
`calculate_all_risk_parameters` sits strictly below its `entry_price`
entry whenever the suggested entry is positive. -/
theorem C3_stop_loss_below_entry :
    (∀ (rm : RiskManagerState) (entry_price current_price : ℚ)
        (indicators : Indicators), 0 < entry_price →
      (calculate_stop_loss rm entry_price current_price indicators).stop_loss_price <
        entry_price) ∧
    (∀ (rm : RiskManagerState) (current_price : ℚ) (indicators : Indicators)
        (total_capital : ℚ) (btc_trend : Option BtcTrend),
      0 < (calculate_entry_price current_price indicators).suggested_entry →
      ∃ e s : ℚ,
        List.lookup "entry_price"
            (calculate_all_risk_parameters rm current_price indicators
              total_capital btc_trend) = some (PyVal.num e) ∧
        List.lookup "stop_loss_price"
            (calculate_all_risk_parameters rm current_price indicators
              total_capital btc_trend) = some (PyVal.num s) ∧
        s < e) := by
  constructor
  · exact fun rm e cp ind h => stop_loss_price_lt_entry rm e cp ind h
  · intro rm cp ind cap bt h
    exact ⟨_, _, rfl, rfl, stop_loss_price_lt_entry rm _ cp ind h⟩

/-- Witness for C3 at a configured engine, price 100 and no indicator
entries. -/
theorem C3_stop_loss_below_entry_witness :
    ((0:ℚ) < 100 ∧
      (calculate_stop_loss rm_configured 100 100 empty_indicators).stop_loss_price < 100) ∧
    (0 < (calculate_entry_price 100 empty_indicators).suggested_entry ∧
      ∃ e s : ℚ,
        List.lookup "entry_price"
            (calculate_all_risk_parameters rm_configured 100 empty_indicators
              10000000 none) = some (PyVal.num e) ∧
        List.lookup "stop_loss_price"
            (calculate_all_risk_parameters rm_configured 100 empty_indicators
              10000000 none) = some (PyVal.num s) ∧
        s < e) :=
  ⟨⟨by norm_num, C3_stop_loss_below_entry.1 rm_configured 100 100 empty_indicators (by norm_num)⟩,
   ⟨by norm_num [calculate_entry_price, empty_indicators],
    C3_stop_loss_below_entry.2 rm_configured 100 empty_indicators 10000000 none
      (by norm_num [calculate_entry_price, empty_indicators])⟩⟩

/-- The per-level ratios of the built ladder are exactly the input ratios. -/
lemma build_tp_levels_map_ratio (ep : ℚ) :
    ∀ (L : List (ℚ × ℚ)) (n : ℕ) (c : ℚ),
      (build_tp_levels ep L n c).map TPLevelDetail.ratio = L.map Prod.snd := by
  intro L
  induction L with
  | nil => intro n c; rfl
  | cons hd tl ih =>
    intro n c
    cases hd with
    | mk pp r => simp [build_tp_levels, ih]

/-- The last cumulative ratio of the built ladder is the starting value plus
the sum of all input ratios. -/
lemma build_tp_levels_last_cum (ep : ℚ) :
    ∀ (L : List (ℚ × ℚ)) (n : ℕ) (c : ℚ), L ≠ [] →
      ((build_tp_levels ep L n c).map TPLevelDetail.cumulative_ratio).getLast? =
        some (c + (L.map Prod.snd).sum) := by
  intro L
  induction L with
  | nil => intro n c h; exact absurd rfl h
  | cons hd tl ih =>
    intro n c _
    cases hd with
    | mk pp r =>
      cases tl with
      | nil => simp [build_tp_levels]
      | cons q tl2 =>
        cases q with
        | mk pp2 r2 =>
          have h2 := ih (n+1) (c+r) (by simp)
          simp only [build_tp_levels, List.map_cons] at h2 ⊢
          rw [List.getLast?_cons_cons, h2]
          congr 1
          simp only [List.sum_cons]
          ring

/-- Along the built ladder the cumulative ratios are non-decreasing when all
input ratios are non-negative. -/
lemma build_tp_levels_chain (ep : ℚ) :
    ∀ (L : List (ℚ × ℚ)) (n : ℕ) (c : ℚ),
      (∀ x ∈ L, 0 ≤ x.2) →
      List.Chain' (fun a b => a ≤ b)
        ((build_tp_levels ep L n c).map TPLevelDetail.cumulative_ratio) := by
  intro L
  induction L with
  | nil => intro n c _; simp [build_tp_levels]
  | cons hd tl ih =>
    intro n c hnn
    cases hd with
    | mk pp r =>
      simp only [build_tp_levels, List.map_cons]
      rw [List.chain'_cons']
      constructor
      · intro b hb
        cases tl with
        | nil => simp [build_tp_levels] at hb
        | cons q tl2 =>
          cases q with
          | mk pp2 r2 =>
            simp only [build_tp_levels, List.map_cons, List.head?_cons,
              Option.mem_def, Option.some.injEq] at hb
            have hr2 : 0 ≤ r2 := hnn (pp2, r2) (by simp)
            rw [← hb]
            linarith
      · exact ih (n+1) (c+r) (fun x hx => hnn x (List.mem_cons_of_mem _ hx))

/-- C4: for every positive entry price and every non-empty ladder of
(profit_percent, ratio) pairs with non-negative ratios summing to 1, the
level list produced by `calculate_take_profit` has per-level ratios summing
to 1, a monotonically non-decreasing `cumulative_ratio`, and a final
`cumulative_ratio` of exactly 1. -/
theorem C4_take_profit_ladder (rm : RiskManagerState) (entry_price : ℚ)
    (h_pos : 0 < entry_price)
    (h_ne : rm.take_profit_levels_sideways ≠ [])
    (h_nonneg : ∀ x ∈ rm.take_profit_levels_sideways, 0 ≤ x.2)
    (h_sum : (rm.take_profit_levels_sideways.map Prod.snd).sum = 1) :
    (((calculate_take_profit rm entry_price none).take_profit_levels.map
        TPLevelDetail.ratio).sum = 1) ∧
    List.Chain' (fun a b => a ≤ b)
      ((calculate_take_profit rm entry_price none).take_profit_levels.map
        TPLevelDetail.cumulative_ratio) ∧
    (((calculate_take_profit rm entry_price none).take_profit_levels.map
        TPLevelDetail.cumulative_ratio).getLast? = some 1) := by
  have hlv : (calculate_take_profit rm entry_price none).take_profit_levels =
      build_tp_levels entry_price rm.take_profit_levels_sideways 0 0 := rfl
  refine ⟨?_, ?_, ?_⟩
  · rw [hlv, build_tp_levels_map_ratio, h_sum]
  · rw [hlv]
    exact build_tp_levels_chain entry_price rm.take_profit_levels_sideways 0 0 h_nonneg
  · rw [hlv, build_tp_levels_last_cum entry_price rm.take_profit_levels_sideways 0 0 h_ne,
      h_sum]
    norm_num

/-- Witness for C4 at entry 100 with the +4%/+8% half-and-half sideways
ladder of the configured scenario engine. -/
theorem C4_take_profit_ladder_witness :
    ((0:ℚ) < 100 ∧ rm_configured.take_profit_levels_sideways ≠ [] ∧
      (∀ x ∈ rm_configured.take_profit_levels_sideways, 0 ≤ x.2) ∧
      (rm_configured.take_profit_levels_sideways.map Prod.snd).sum = 1) ∧
    ((((calculate_take_profit rm_configured 100 none).take_profit_levels.map
        TPLevelDetail.ratio).sum = 1) ∧
      List.Chain' (fun a b => a ≤ b)
        ((calculate_take_profit rm_configured 100 none).take_profit_levels.map
          TPLevelDetail.cumulative_ratio) ∧
      (((calculate_take_profit rm_configured 100 none).take_profit_levels.map
          TPLevelDetail.cumulative_ratio).getLast? = some 1)) :=
  ⟨⟨by norm_num, by simp [rm_configured], by norm_num [rm_configured],
    by norm_num [rm_configured]⟩,
   C4_take_profit_ladder rm_configured 100 (by norm_num) (by simp [rm_configured])
     (by norm_num [rm_configured]) (by norm_num [rm_configured])⟩

/-- Concrete value of the +4%/+8% half-and-half ladder at entry 100. -/
lemma tp_ladder_eval :
    build_tp_levels 100 [(4, 1/2), (8, 1/2)] 0 0 =
      [{ level := 1, profit_percent := 4, profit_price := 104, profit_amount := 4,
         ratio := 1/2, cumulative_ratio := 1/2 },
       { level := 2, profit_percent := 8, profit_price := 108, profit_amount := 8,
         ratio := 1/2, cumulative_ratio := 1 }] := by
  norm_num [build_tp_levels]

/-- C6: against the claim, the stop-loss branch of the replay loop closes
the full ORIGINAL position size: with level 1 (half the 10 units) already
exited, a bar at 96 ≤ stop 97 credits 96·10 = 960 to capital and records a
stop-loss trade of size 10, although only 10·(1 − 1/2) = 5 units remain —
the realized quantity exceeds what is still held. -/
theorem C6_stop_loss_full_original_size :
    (position_bar_step "KRW-XRP" 2 96 0 c6_position []).1 = 960 ∧
    (position_bar_step "KRW-XRP" 2 96 0 c6_position []).2.1 = none ∧
    (position_bar_step "KRW-XRP" 2 96 0 c6_position []).2.2.map
        (fun t => (t.position_size, t.exit_reason)) = [(10, "손절")] ∧
    c6_position.position_size * (1 - 1/2) = 5 ∧
    ((5:ℚ) < 10) := by
  refine ⟨?_, ?_, ?_, ?_, by norm_num⟩ <;>
    norm_num [position_bar_step, c6_position, simulate_trade, tp_ladder_eval]

/-- C7: against the claim, realized trade P&L and the capital accounting
disagree: in a run entering 10 units at 100 (capital 10,000,000 − 1,000),
a bar at 104 fires take-profit level 1 (sells 5 units, profit +20), and the
next bar at 96 hits the stop, crediting the full 10 units again; the final
value is 10,000,480 so final − initial = +480, while the recorded trade
profits sum to 20 − 40 = −20. -/
theorem C7_pnl_accounting_mismatch :
    ((position_bar_step "KRW-XRP" 1 104 9999000 c7_position []).1 = 9999520 ∧
      (position_bar_step "KRW-XRP" 1 104 9999000 c7_position []).2.1 =
        some { c7_position with exited_levels := [1] } ∧
      (position_bar_step "KRW-XRP" 1 104 9999000 c7_position []).2.2.map
        Trade.profit = [20]) ∧
    ((position_bar_step "KRW-XRP" 2 96 9999520
        { c7_position with exited_levels := [1] } []).1 = 10000480 ∧
      (position_bar_step "KRW-XRP" 2 96 9999520
        { c7_position with exited_levels := [1] } []).2.1 = none ∧
      (position_bar_step "KRW-XRP" 2 96 9999520
        { c7_position with exited_levels := [1] } []).2.2.map
        Trade.profit = [-40]) ∧
    backtest_final_value 10000480 none 96 = 10000480 ∧
    ((20:ℚ) + (-40) = -20) ∧
    ((10000480:ℚ) - 10000000 = 480) ∧
    ((480:ℚ) ≠ -20) := by
  refine ⟨⟨?_, ?_, ?_⟩, ⟨?_, ?_, ?_⟩, ?_, by norm_num, by norm_num, by norm_num⟩ <;>
    norm_num [position_bar_step, c7_position, simulate_trade, tp_ladder_eval,
      backtest_final_value, List.cons_ne_nil]

end Autostar
